import Mathlib

/-!
Verification of the coordinate-resolution and multi-source aggregation logic
of the site-geo front end (`src/frontend/app.jsx`).

The embedding follows the JavaScript source closely:

* JavaScript numbers are modelled as exact rationals (`ℚ`); a string-to-number
  conversion returns `Option ℚ`, where `none` stands for a non-finite result
  (`NaN` or an infinity) — the only distinction the source ever makes is the
  `Number.isFinite` test, which conflates the two.  Conversion of a decimal
  literal whose exact value reaches the IEEE-754 double overflow bound is
  modelled with the threshold `2 ^ 1024` (`Number` yields `Infinity` there).
* `parseLatLon` (the pasted-coordinate resolver) is embedded together with a
  model of the global regex scan `-?\d+(?:[.,]\d+)?/g` it performs.
* The `run` callback is embedded as a state transformer on a `Snapshot`
  record holding the five per-source React state fields plus the error
  string; each backend call's behaviour is an `Except String` value (`error`
  = the call threw / rejected, carrying the thrown message).
* `fetchJSON` is embedded over an abstract `decode` parameter standing for
  the platform's `JSON.parse` (an external collaborator): `decode body =
  none` models `JSON.parse` throwing on that body.
-/

/-! ## JavaScript number conversion (`Number(string)`), modelled on ℚ -/

/-- Characters trimmed by JavaScript `ToNumber` before parsing a string
(ASCII whitespace, line terminators, NBSP). -/
def isJsSpace (c : Char) : Bool :=
  c = ' ' || c = '\t' || c = '\n' || c = '\r' || c = '\x0b' || c = '\x0c' || c = ' '

/-- Value of a list of ASCII decimal digits, most significant first. -/
def digitsVal (ds : List Char) : ℕ :=
  ds.foldl (fun a c => 10 * a + (c.toNat - 48)) 0

/-- Exponent tail of a JavaScript decimal literal: either nothing, or
`e`/`E`, an optional sign, and at least one digit consuming the rest. -/
def parseExpPart : List Char → Option ℤ
  | [] => some 0
  | c :: r =>
    if c = 'e' || c = 'E' then
      match r with
      | '+' :: r2 => if !r2.isEmpty && r2.all (·.isDigit) then some (digitsVal r2) else none
      | '-' :: r2 => if !r2.isEmpty && r2.all (·.isDigit) then some (-(digitsVal r2 : ℤ)) else none
      | r2 => if !r2.isEmpty && r2.all (·.isDigit) then some (digitsVal r2) else none
    else none

/-- Scale an unsigned mantissa `m / 10 ^ fdigits` by `10 ^ e`, as an exact
numerator/denominator pair over ℕ (the denominator is a power of ten, hence
never zero). -/
def applyExp (m fdigits : ℕ) : ℤ → ℕ × ℕ
  | .ofNat n => (m * 10 ^ n, 10 ^ fdigits)
  | .negSucc n => (m, 10 ^ fdigits * 10 ^ (n + 1))

/-- Unsigned JavaScript decimal literal `digits [. digits] [exponent]`
(with at least one digit in the mantissa), consuming the whole input; its
exact value as a numerator/denominator pair. -/
def parseUnsignedDec (cs : List Char) : Option (ℕ × ℕ) :=
  let ip := cs.takeWhile (·.isDigit)
  let r1 := cs.dropWhile (·.isDigit)
  match r1 with
  | '.' :: r2 =>
    let fp := r2.takeWhile (·.isDigit)
    let r3 := r2.dropWhile (·.isDigit)
    if ip.isEmpty && fp.isEmpty then none
    else
      match parseExpPart r3 with
      | some e => some (applyExp (digitsVal ip * 10 ^ fp.length + digitsVal fp) fp.length e)
      | none => none
  | _ =>
    if ip.isEmpty then none
    else
      match parseExpPart r1 with
      | some e => some (applyExp (digitsVal ip) 0 e)
      | none => none

/-- Value of a hexadecimal digit (also covers the octal and binary cases,
which reject digits at or above their base). -/
def hexDigitVal (c : Char) : Option ℕ :=
  if '0' ≤ c ∧ c ≤ '9' then some (c.toNat - 48)
  else if 'a' ≤ c ∧ c ≤ 'f' then some (c.toNat - 87)
  else if 'A' ≤ c ∧ c ≤ 'F' then some (c.toNat - 55)
  else none

/-- Digits of a radix literal: nonempty, every digit valid and below the base. -/
def radixVal (base : ℕ) (ds : List Char) : Option ℕ :=
  if ds.isEmpty then none
  else
    ds.foldl
      (fun acc c =>
        match acc, hexDigitVal c with
        | some a, some d => if d < base then some (base * a + d) else none
        | _, _ => none)
      (some 0)

/-- An unsigned JavaScript numeric literal: `0x`/`0o`/`0b` radix forms
(sign not permitted before these) or a decimal literal. -/
def parseRadixOrDec (cs : List Char) : Option (ℕ × ℕ) :=
  match cs with
  | '0' :: c :: r =>
    if c = 'x' || c = 'X' then (radixVal 16 r).map (fun n => (n, 1))
    else if c = 'o' || c = 'O' then (radixVal 8 r).map (fun n => (n, 1))
    else if c = 'b' || c = 'B' then (radixVal 2 r).map (fun n => (n, 1))
    else parseUnsignedDec cs
  | _ => parseUnsignedDec cs

/-- The IEEE-754 float64 overflow bound `2 ^ 1024` (written with a smaller
exponent for evaluation): exact magnitudes at or beyond it convert to an
infinity, hence are non-finite. -/
def float64Bound : ℕ := 65536 ^ 64

/-- `float64Bound` is `2 ^ 1024`. -/
lemma float64Bound_eq : float64Bound = 2 ^ 1024 := by norm_num [float64Bound]

/-- The finite number `Number` yields from an exact magnitude `nd.1 / nd.2`
with the given sign, or `none` when the magnitude overflows float64 (the
result is an infinity, hence fails `Number.isFinite`). -/
def finiteClamp (neg : Bool) (nd : ℕ × ℕ) : Option ℚ :=
  if float64Bound * nd.2 ≤ nd.1 then none
  else some (mkRat (if neg then -(nd.1 : ℤ) else (nd.1 : ℤ)) nd.2)

/-- JavaScript `Number(s)` for a string argument, returning `some` exact
value when the result is a finite number and `none` when it is `NaN` or an
infinity (the literal `Infinity` fails the numeric grammar below, which is
exactly the non-finite outcome this model assigns it). -/
def jsStringToNumber (s : String) : Option ℚ :=
  let cs := ((s.data.dropWhile isJsSpace).reverse.dropWhile isJsSpace).reverse
  if cs.isEmpty then some 0
  else
    match cs with
    | '+' :: r => (parseUnsignedDec r).bind (finiteClamp false)
    | '-' :: r => (parseUnsignedDec r).bind (finiteClamp true)
    | r => (parseRadixOrDec r).bind (finiteClamp false)

/-- JavaScript `s.replace(",", ".")`: only the first occurrence of the
one-character pattern is replaced. -/
def replaceFirstComma : List Char → List Char
  | [] => []
  | c :: cs => if c = ',' then '.' :: cs else c :: replaceFirstComma cs

/-- The `,` → `.` normalisation `v.replace(",", ".")` applied throughout the
source before numeric conversion. -/
def jsReplaceComma (s : String) : String := String.mk (replaceFirstComma s.data)

/-! ## The coordinate text resolver (`parseLatLon`) -/

/-- One anchored attempt of the regex `\d+(?:[.,]\d+)?` (the body after the
optional sign): greedy integer digits, then optionally a `.` or `,`
separator followed by at least one digit (if no digit follows the
separator, the optional group matches empty and the match is the integer
digits alone).  Returns the matched characters and the rest. -/
def numTokenCore (body : List Char) : Option (List Char × List Char) :=
  let ip := body.takeWhile (·.isDigit)
  let r1 := body.dropWhile (·.isDigit)
  if ip.isEmpty then none
  else
    match r1 with
    | sep :: r2 =>
      if sep = '.' || sep = ',' then
        let fp := r2.takeWhile (·.isDigit)
        let r3 := r2.dropWhile (·.isDigit)
        if fp.isEmpty then some (ip, r1) else some (ip ++ sep :: fp, r3)
      else some (ip, r1)
    | [] => some (ip, [])

/-- An anchored attempt of `-?\d+(?:[.,]\d+)?` at the current position: a
leading `-` is included only when digits follow it (otherwise `-?`
backtracks to empty and the attempt fails, as no digit starts here). -/
def numTokenAt (cs : List Char) : Option (List Char × List Char) :=
  match cs with
  | '-' :: r =>
    (match numTokenCore r with
     | some (tok, rest) => some ('-' :: tok, rest)
     | none => none)
  | r => numTokenCore r

/-- The global scan of `str.match` with pattern `-?\d+(?:[.,]\d+)?` and the
`g` flag: repeated anchored attempts left to right, resuming after each
match (fuel is the remaining length; every step consumes at least one
character). -/
def scanAux : ℕ → List Char → List String
  | 0, _ => []
  | _ + 1, [] => []
  | n + 1, c :: cs =>
    match numTokenAt (c :: cs) with
    | some (tok, rest) => String.mk tok :: scanAux n rest
    | none => scanAux n cs

/-- All matches of the signed decimal-number pattern in the input, in
left-to-right order. -/
def jsMatches (s : String) : List String := scanAux s.data.length s.data

/-- Conversion applied to each extracted token:
`Number(v.replace(",", "."))`. -/
def toNumber (tok : String) : Option ℚ := jsStringToNumber (jsReplaceComma tok)

/-- The validated point `{ lat, lon }` produced by the resolver. -/
structure LatLon where
  lat : ℚ
  lon : ℚ
deriving DecidableEq, Repr

/-- `parseLatLon` of `app.jsx`: `null` for an absent or empty input, else
the first two regex matches converted (comma normalised to a dot); `null`
unless exactly two tokens were taken and both converted to finite numbers;
the first is the latitude, the second the longitude. -/
def parseLatLon : Option String → Option LatLon
  | none => none
  | some s =>
    if s = "" then none
    else
      match ((jsMatches s).take 2).map toNumber with
      | [some la, some lo] => some ⟨la, lo⟩
      | _ => none

/-! ## The multi-source aggregator (`run` of `app.jsx`) -/

/-- The heritage-summary field: either the decoded payload, or the
fallback record `\x7b not_available: true, error \x7d` the catch branch
stores. -/
inductive HeritageState (α : Type) where
  | payload : α → HeritageState α
  | notAvailable : String → HeritageState α
deriving DecidableEq, Repr

/-- The component state a run writes: the five per-source React state
fields (`null` = `none`) and the accumulated error string `err`. -/
structure Snapshot (α : Type) where
  sheet : Option α
  plu : Option α
  urbanisme : Option α
  heritageSummary : Option (HeritageState α)
  airport : Option α
  err : String
deriving DecidableEq, Repr

/-- The state with no results and an empty error string. -/
def emptySnapshot {α : Type} : Snapshot α := ⟨none, none, none, none, none, ""⟩

/-- The opening statements of `run`: `setErr("")` and the five `setX(null)`
calls, clearing every per-source field and the error string. -/
def resetState {α : Type} (s : Snapshot α) : Snapshot α :=
  { s with
    err := ""
    sheet := none
    plu := none
    urbanisme := none
    heritageSummary := none
    airport := none }

instance {ε α : Type} [DecidableEq ε] [DecidableEq α] : DecidableEq (Except ε α) := fun x y =>
  match x, y with
  | .ok a, .ok b => if h : a = b then .isTrue (by rw [h]) else .isFalse (by simp [h])
  | .error a, .error b => if h : a = b then .isTrue (by rw [h]) else .isFalse (by simp [h])
  | .ok _, .error _ => .isFalse (by simp)
  | .error _, .ok _ => .isFalse (by simp)

/-- The outcome of one backend call for this run: `ok payload` when
`fetchJSON` returned a value, `error m` when it threw an exception whose
`message` is `m`. -/
structure RunCalls (α : Type) where
  sheet : Except String α
  plu : Except String α
  urbanisme : Except String α
  heritage : Except String α
  airport : Except String α
deriving DecidableEq, Repr

/-- The error accumulator `setErr(prev => (prev ? prev + " | " : "") + msg)`:
a truthy (nonempty) previous string gets a `" | "` separator. -/
def appendErr (prev msg : String) : String :=
  if prev = "" then msg else prev ++ " | " ++ msg

/-- Settle the cadastral-sheet call: store the payload, or append
`"Feuille: " + e.message` to the error string. -/
def settleSheet {α : Type} (s : Snapshot α) : Except String α → Snapshot α
  | .ok v => { s with sheet := some v }
  | .error m => { s with err := appendErr s.err ("Feuille: " ++ m) }

/-- Settle the zoning (PLU) call: store the payload, or append
`"PLU: " + e.message` to the error string. -/
def settlePlu {α : Type} (s : Snapshot α) : Except String α → Snapshot α
  | .ok v => { s with plu := some v }
  | .error m => { s with err := appendErr s.err ("PLU: " ++ m) }

/-- Settle the urban-planning-status call: store the payload; its catch
branch is empty ("optionnel: silencieux si pas implémenté"), so a failure
changes nothing. -/
def settleUrbanisme {α : Type} (s : Snapshot α) : Except String α → Snapshot α
  | .ok v => { s with urbanisme := some v }
  | .error _ => s

/-- `String(e.message || e)` of the heritage catch branch: the message when
truthy, else the rendering of a message-less `Error`. -/
def heritageErrText (m : String) : String := if m = "" then "Error" else m

/-- Settle the heritage-summary call: store the payload, or store the
`not_available` fallback record carrying the failure text. -/
def settleHeritage {α : Type} (s : Snapshot α) : Except String α → Snapshot α
  | .ok v => { s with heritageSummary := some (.payload v) }
  | .error m => { s with heritageSummary := some (.notAvailable (heritageErrText m)) }

/-- Settle the airport-proximity call: store the payload, or append
`"Aéroport: " + e.message` to the error string. -/
def settleAirport {α : Type} (s : Snapshot α) : Except String α → Snapshot α
  | .ok v => { s with airport := some v }
  | .error m => { s with err := appendErr s.err ("Aéroport: " ++ m) }

/-- The five sequential try/catch dispatch blocks of `run`, in source
order, threaded through the state. -/
def aggregateFrom {α : Type} (s : Snapshot α) (c : RunCalls α) : Snapshot α :=
  settleAirport
    (settleHeritage
      (settleUrbanisme (settlePlu (settleSheet s c.sheet) c.plu) c.urbanisme)
      c.heritage)
    c.airport

/-- One aggregation run over a validated point: every registered source
dispatched from the cleared state. -/
def aggregate {α : Type} (c : RunCalls α) : Snapshot α := aggregateFrom emptySnapshot c

/-- The validation message `run` surfaces for non-finite coordinates. -/
def invalidMsg : String := "Coordonnées invalides (ex: 48.8566 / 2.3522)."

/-- The coordinate validation of `run`:
`lonNum = Number(String(lon).replace(",", "."))`, same for `lat`, then
`Number.isFinite` on both. -/
def validateCoords (latS lonS : String) : Option (ℚ × ℚ) :=
  match jsStringToNumber (jsReplaceComma lonS), jsStringToNumber (jsReplaceComma latS) with
  | some lo, some la => some (lo, la)
  | _, _ => none

/-- The whole `run` callback: clear the previous snapshot, validate the two
coordinate fields, and either stop with the validation error or dispatch
the five source calls (`backends` gives each call's outcome at the
validated `lon`/`lat`). -/
def run {α : Type} (prev : Snapshot α) (latS lonS : String)
    (backends : ℚ → ℚ → RunCalls α) : Snapshot α :=
  match validateCoords latS lonS with
  | none => { resetState prev with err := invalidMsg }
  | some (lo, la) => aggregateFrom (resetState prev) (backends lo la)

/-- The swap handler: `const a = lon; setLon(lat); setLat(a);` on the pair
of coordinate fields (whatever their current type). -/
structure CoordFields (α : Type) where
  lat : α
  lon : α
deriving DecidableEq, Repr

/-- `swap` exchanges the two coordinate fields without re-parsing. -/
def swap {α : Type} (c : CoordFields α) : CoordFields α := ⟨c.lon, c.lat⟩

/-! ## `fetchJSON` (response classification) -/

/-- What `fetch` resolves to: the HTTP-level response (`ok`, `status`,
`statusText`) and the body text `await res.text()` yields. -/
structure HttpResponse where
  ok : Bool
  status : ℕ
  statusText : String
  body : String
deriving DecidableEq, Repr

/-- `fetchJSON` of `app.jsx` over an abstract `decode` standing for the
platform's `JSON.parse` (`none` = `JSON.parse` throws on that body): a
rejected fetch propagates; a non-ok status throws
`status + " " + statusText + " — " + txt`; an ok status returns the decoded
payload, falling back to the raw body text when decoding fails. -/
def fetchJSON {α : Type} (decode : String → Option α) :
    Except String HttpResponse → Except String (α ⊕ String)
  | .error m => .error m
  | .ok r =>
    if r.ok then
      match decode r.body with
      | some v => .ok (.inl v)
      | none => .ok (.inr r.body)
    else .error (toString r.status ++ " " ++ r.statusText ++ " — " ++ r.body)

/-- A concrete stand-in for `JSON.parse` used at concrete inputs: accepts
exactly the body `"null"` (a well-formed JSON document) and throws on
everything else. -/
def mockDecode : String → Option Unit := fun s => if s = "null" then some () else none

/-! ## Interleaved executions of overlapping runs

`run` is an async function writing through React state setters into state
shared by every invocation of the component's callbacks.  Each await
boundary lets another invocation's statements run; the atomic units are the
synchronous blocks between awaits: the initial clear-and-validate block,
and each source's settle block.  A run's own steps stay in source order;
steps of overlapping runs interleave. -/

/-- One atomic synchronous block of a `run` invocation. -/
inductive RunStep (α : Type) where
  | reset
  | invalid
  | sheet : Except String α → RunStep α
  | plu : Except String α → RunStep α
  | urbanisme : Except String α → RunStep α
  | heritage : Except String α → RunStep α
  | airport : Except String α → RunStep α
deriving DecidableEq, Repr

/-- Apply one step to the shared component state. -/
def applyStep {α : Type} (s : Snapshot α) : RunStep α → Snapshot α
  | .reset => resetState s
  | .invalid => { s with err := invalidMsg }
  | .sheet r => settleSheet s r
  | .plu r => settlePlu s r
  | .urbanisme r => settleUrbanisme s r
  | .heritage r => settleHeritage s r
  | .airport r => settleAirport s r

/-- Execute a schedule of steps on the shared state. -/
def execSteps {α : Type} (s : Snapshot α) (steps : List (RunStep α)) : Snapshot α :=
  steps.foldl applyStep s

/-- The steps of one `run` invocation that passed validation, in source
order. -/
def runSteps {α : Type} (c : RunCalls α) : List (RunStep α) :=
  [.reset, .sheet c.sheet, .plu c.plu, .urbanisme c.urbanisme, .heritage c.heritage,
    .airport c.airport]

/-- `Interleaves l r z`: schedule `z` interleaves the two runs' step lists
`l` and `r`, keeping each run's own order. -/
inductive Interleaves {β : Type} : List β → List β → List β → Prop where
  | nil : Interleaves [] [] []
  | consLeft {x : β} {xs ys zs : List β} :
      Interleaves xs ys zs → Interleaves (x :: xs) ys (x :: zs)
  | consRight {y : β} {xs ys zs : List β} :
      Interleaves xs ys zs → Interleaves xs (y :: ys) (y :: zs)

/-! ## Views of a settled snapshot (for stating the aggregation claims) -/

/-- The per-source outcome a settled snapshot records: a payload, a
silently-absent (`null`) field, or the heritage `not_available` record. -/
inductive Outcome (α : Type) where
  | success : α → Outcome α
  | missing
  | unavailable : String → Outcome α
deriving DecidableEq, Repr

/-- Outcome view of a plain per-source field. -/
def outcomeOfOpt {α : Type} : Option α → Outcome α
  | some v => .success v
  | none => .missing

/-- Outcome view of the heritage-summary field. -/
def outcomeOfHeritage {α : Type} : Option (HeritageState α) → Outcome α
  | some (.payload v) => .success v
  | some (.notAvailable r) => .unavailable r
  | none => .missing

/-- The five per-source entries of a snapshot, in registration order. -/
def sourceOutcomes {α : Type} (s : Snapshot α) : List (Outcome α) :=
  [outcomeOfOpt s.sheet, outcomeOfOpt s.plu, outcomeOfOpt s.urbanisme,
    outcomeOfHeritage s.heritageSummary, outcomeOfOpt s.airport]

/-- Whether an outcome is a `success`. -/
def isSuccess {α : Type} : Outcome α → Bool
  | .success _ => true
  | _ => false

/-- Whether a call result is a failure. -/
def isFail {α : Type} : Except String α → Bool
  | .error _ => true
  | .ok _ => false

/-- How many of the five source calls of a run failed. -/
def failCount {α : Type} (c : RunCalls α) : ℕ :=
  [c.sheet, c.plu, c.urbanisme, c.heritage, c.airport].countP isFail

/-- The messages the failed required (non-silent) sources contribute, in
dispatch order: the urbanisme and heritage dispatches never touch the
error string. -/
def requiredErrs {α : Type} (c : RunCalls α) : List String :=
  (match c.sheet with | .error m => ["Feuille: " ++ m] | .ok _ => []) ++
  (match c.plu with | .error m => ["PLU: " ++ m] | .ok _ => []) ++
  (match c.airport with | .error m => ["Aéroport: " ++ m] | .ok _ => [])

/-- The messages of an error log rendered the way the accumulator renders
them: in order, separated by `" | "`, nothing else. -/
def joinLog : List String → String
  | [] => ""
  | m :: ms => ms.foldl (fun a b => a ++ " | " ++ b) m

/-- The per-source field a successful or failed sheet/plu/urbanisme/airport
call leaves behind. -/
def optOutcome {α : Type} : Except String α → Option α
  | .ok v => some v
  | .error _ => none

/-- The heritage-summary field either call outcome leaves behind. -/
def heritageOutcome {α : Type} : Except String α → Option (HeritageState α)
  | .ok v => some (.payload v)
  | .error m => some (.notAvailable (heritageErrText m))

/-! ## Shared lemmas -/

/-- A string with a nonempty prefix is nonempty. -/
lemma append_ne_empty {s : String} (t : String) (h : s ≠ "") : s ++ t ≠ "" := by
  intro hc
  apply h
  apply String.ext
  have := congrArg String.data hc
  rw [String.data_append] at this
  exact (List.append_eq_nil.mp this).1

/-- `appendErr` on a nonempty accumulator appends with the separator. -/
lemma appendErr_ne {prev : String} (msg : String) (h : prev ≠ "") :
    appendErr prev msg = prev ++ " | " ++ msg := if_neg h

/-- `appendErr` on the empty accumulator is the message alone. -/
lemma appendErr_empty (msg : String) : appendErr "" msg = msg := if_pos rfl

/-- Clearing the state always yields the empty snapshot, whatever was
there. -/
lemma resetState_eq {α : Type} (s : Snapshot α) : resetState s = emptySnapshot := rfl

/-- Every run settles to the snapshot determined pointwise by its own five
call results, with the error string listing exactly the failed required
sources' messages in dispatch order. -/
lemma aggregate_spec {α : Type} (c : RunCalls α) :
    aggregate c =
      ⟨optOutcome c.sheet, optOutcome c.plu, optOutcome c.urbanisme,
        heritageOutcome c.heritage, optOutcome c.airport, joinLog (requiredErrs c)⟩ := by
  obtain ⟨s, p, u, h, a⟩ := c
  cases s <;> cases p <;> cases u <;> cases h <;> cases a <;> rfl

/-- Executing a concatenated schedule executes the pieces in order. -/
lemma execSteps_append {α : Type} (s : Snapshot α) (l r : List (RunStep α)) :
    execSteps s (l ++ r) = execSteps (execSteps s l) r :=
  List.foldl_append applyStep s l r

/-- A full run's steps, from any shared state, leave exactly that run's
aggregate: the leading reset discards whatever was there. -/
lemma execSteps_runSteps {α : Type} (s : Snapshot α) (c : RunCalls α) :
    execSteps s (runSteps c) = aggregate c := rfl

/-! ## The claims -/

/-- C1: every run of the aggregator over the five registered sources
yields a snapshot with exactly five per-source entries (every source is
attempted whatever the others do), of which exactly as many are
non-`success` as there were failed calls, and whose error string is
exactly the failed required (non-silent) sources' messages, in the order
the failures were detected, and nothing else. -/
theorem C1_run_snapshot_complete {α : Type} (c : RunCalls α) :
    (sourceOutcomes (aggregate c)).length = 5 ∧
    ((sourceOutcomes (aggregate c)).filter fun o => !isSuccess o).length = failCount c ∧
    (aggregate c).err = joinLog (requiredErrs c) := by
  rw [aggregate_spec]
  obtain ⟨s, p, u, h, a⟩ := c
  refine ⟨rfl, ?_, rfl⟩
  cases s <;> cases p <;> cases u <;> cases h <;> cases a <;> rfl

/-- C3: whatever each source call does — including throwing — the
aggregator terminates with a complete snapshot: each source settles to the
outcome its own call result determines (failures recorded in its field or
in the error log), and no exception escapes past the aggregator. -/
theorem C3_failures_contained {α : Type} (c : RunCalls α) :
    aggregate c =
      ⟨optOutcome c.sheet, optOutcome c.plu, optOutcome c.urbanisme,
        heritageOutcome c.heritage, optOutcome c.airport, joinLog (requiredErrs c)⟩ :=
  aggregate_spec c

/-- C9: `swap` exactly transposes the two coordinate fields, and applied
twice restores the original pair. -/
theorem C9_swap_involution {α : Type} (c : CoordFields α) :
    swap (swap c) = c ∧ swap c = ⟨c.lon, c.lat⟩ :=
  ⟨rfl, rfl⟩

/-- C2 (counterexample): in a run whose urbanisme call — a silent-failure
source — fails, the urbanisme field of the snapshot is simply `null`, not
an `Unavailable` record; nothing reaches the error log either. -/
theorem C2_counterexample :
    (aggregate (⟨.ok "s", .ok "p", .error "boom", .ok "h", .ok "a"⟩ : RunCalls String)).urbanisme
        = none ∧
    outcomeOfOpt
        (aggregate (⟨.ok "s", .ok "p", .error "boom", .ok "h", .ok "a"⟩ :
          RunCalls String)).urbanisme = .missing ∧
    (aggregate (⟨.ok "s", .ok "p", .error "boom", .ok "h", .ok "a"⟩ : RunCalls String)).err
        = "" :=
  ⟨rfl, rfl, rfl⟩

/-- C2 (amended): a failing silent source never contributes to the error
log; the heritage-summary source's outcome is indeed recorded as the
`not_available` (Unavailable) record, but the urbanisme source's outcome is
left absent (`null`), not recorded. -/
theorem C2_silent_sources {α : Type} (c : RunCalls α) (m : String) (v : α) :
    (aggregate { c with urbanisme := .error m }).err
        = (aggregate { c with urbanisme := .ok v }).err ∧
    (aggregate { c with urbanisme := .error m }).urbanisme = none ∧
    (aggregate { c with heritage := .error m }).err
        = (aggregate { c with heritage := .ok v }).err ∧
    (aggregate { c with heritage := .error m }).heritageSummary
        = some (.notAvailable (heritageErrText m)) := by
  refine ⟨?_, ?_, ?_, ?_⟩
  · rw [aggregate_spec, aggregate_spec]; rfl
  · rw [aggregate_spec]; rfl
  · rw [aggregate_spec, aggregate_spec]; rfl
  · rw [aggregate_spec]; rfl

/-- C4 (counterexample): an HTTP-level success whose body `JSON.parse`
rejects (here an HTML error page under the concrete `mockDecode` stand-in)
is returned by `fetchJSON` as a success carrying the raw malformed body
text, not classified as a failure of the source. -/
theorem C4_counterexample :
    mockDecode "<!doctype html>" = none ∧
    fetchJSON mockDecode (.ok ⟨true, 200, "OK", "<!doctype html>"⟩)
        = .ok (.inr "<!doctype html>") :=
  ⟨rfl, rfl⟩

/-- C4 (amended): a rejected fetch or a non-ok status is classified as a
failure of the source; an ok-status response decodes to the payload when
`JSON.parse` succeeds, and is returned as a success carrying the raw body
text — never a failure — when `JSON.parse` throws. -/
theorem C4_fetchJSON_classification {α : Type} (decode : String → Option α)
    (r : HttpResponse) (m : String) :
    fetchJSON decode (.error m) = .error m ∧
    (r.ok = false →
      fetchJSON decode (.ok r)
        = .error (toString r.status ++ " " ++ r.statusText ++ " — " ++ r.body)) ∧
    (r.ok = true → decode r.body = none → fetchJSON decode (.ok r) = .ok (.inr r.body)) ∧
    (r.ok = true → ∀ v, decode r.body = some v → fetchJSON decode (.ok r) = .ok (.inl v)) := by
  refine ⟨rfl, ?_, ?_, ?_⟩
  · intro h; simp [fetchJSON, h]
  · intro h hd; simp [fetchJSON, h, hd]
  · intro h v hd; simp [fetchJSON, h, hd]

/-- C4 (witness): the classification at concrete inputs — a 502 response is
a failure carrying status, statusText and body; an ok response with the
well-formed body `"null"` is a decoded success. -/
theorem C4_witness :
    fetchJSON mockDecode (.ok ⟨false, 502, "Bad Gateway", "upstream down"⟩)
        = .error "502 Bad Gateway — upstream down" ∧
    fetchJSON mockDecode (.ok ⟨true, 200, "OK", "null"⟩) = .ok (.inl ()) :=
  ⟨by
    have h := (C4_fetchJSON_classification mockDecode
      ⟨false, 502, "Bad Gateway", "upstream down"⟩ "").2.1 rfl
    simpa using h,
   (C4_fetchJSON_classification mockDecode ⟨true, 200, "OK", "null"⟩ "").2.2.2 rfl () rfl⟩

/-- The calls of a stale run used in the C5 counterexample. -/
def staleCalls : RunCalls String :=
  ⟨.ok "sheet-old", .ok "plu-old", .ok "urb-old", .ok "her-old", .ok "airport-old"⟩

/-- The calls of the newer run used in the C5 counterexample. -/
def freshCalls : RunCalls String :=
  ⟨.ok "sheet-new", .ok "plu-new", .ok "urb-new", .ok "her-new", .ok "airport-new"⟩

/-- The C5 schedule: the stale run performs everything but its airport
settle, the new run then runs to completion, and finally the stale run's
slow airport call completes. -/
def staleSchedule : List (RunStep String) :=
  [.reset, .sheet (.ok "sheet-old"), .plu (.ok "plu-old"), .urbanisme (.ok "urb-old"),
    .heritage (.ok "her-old"),
    .reset, .sheet (.ok "sheet-new"), .plu (.ok "plu-new"), .urbanisme (.ok "urb-new"),
    .heritage (.ok "her-new"), .airport (.ok "airport-new"),
    .airport (.ok "airport-old")]

/-- C5 (counterexample): a valid interleaving of a stale run and a new run
in which the stale run's slow airport call completes after the new run has
fully settled; the snapshot the new run's caller observes then carries the
stale run's airport outcome, not its own — the stale completion is merged,
not discarded. -/
theorem C5_counterexample :
    Interleaves (runSteps staleCalls) (runSteps freshCalls) staleSchedule ∧
    (execSteps emptySnapshot staleSchedule).airport = some "airport-old" ∧
    (aggregate freshCalls).airport = some "airport-new" ∧
    some "airport-old" ≠ (aggregate freshCalls).airport := by
  refine ⟨?_, rfl, rfl, by decide⟩
  exact Interleaves.consLeft <| .consLeft <| .consLeft <| .consLeft <| .consLeft <|
    .consRight <| .consRight <| .consRight <| .consRight <| .consRight <| .consRight <|
    .consLeft .nil

/-- C5 (amended): the component state is a single shared, last-writer-wins
sink with no per-run ownership: whatever ran before, a new run's leading
reset discards it and the run settles to its own aggregate — but any stale
step applied afterwards simply mutates that snapshot in place. -/
theorem C5_last_writer_wins {α : Type} (s : Snapshot α) (pre : List (RunStep α))
    (c : RunCalls α) (stale : RunStep α) :
    execSteps s (pre ++ (runSteps c ++ [stale])) = applyStep (aggregate c) stale := by
  rw [execSteps_append, execSteps_append, execSteps_runSteps]
  rfl

/-- An input whose first regex match is a 400-digit number: its exact value
overflows float64, so `Number` yields `Infinity` and the finiteness filter
of `parseLatLon` rejects the whole parse. -/
def overflowText : String := String.mk (List.replicate 400 '9') ++ " 1"

set_option maxRecDepth 10000 in
/-- C6 (counterexample): a text with two matches of the signed
decimal-number pattern on which `parse` nevertheless fails — the first
token does not convert to a finite number. -/
theorem C6_counterexample :
    2 ≤ (jsMatches overflowText).length ∧ parseLatLon (some overflowText) = none := by
  constructor
  · decide
  · decide

/-- C6 (amended): for every input text whose regex scan yields at least two
matches, each of whose first two tokens converts (after `,` → `.`
normalisation) to a finite number, `parse` succeeds with the first match as
latitude and the second as longitude. -/
theorem C6_parse_first_two (s m0 m1 : String) (rest : List String) (q0 q1 : ℚ)
    (hm : jsMatches s = m0 :: m1 :: rest)
    (h0 : toNumber m0 = some q0) (h1 : toNumber m1 = some q1) :
    parseLatLon (some s) = some ⟨q0, q1⟩ := by
  have hs : s ≠ "" := by
    intro h
    subst h
    rw [show jsMatches "" = [] from rfl] at hm
    simp at hm
  simp only [parseLatLon, hm]
  rw [if_neg hs]
  simp [h0, h1]

/-- C6 (witness): the spec's own example paste resolves to its two numbers
as `(lat, lon)`. -/
theorem C6_witness :
    jsMatches "43.32047104103794, 3.2202660369625726"
        = ["43.32047104103794", "3.2202660369625726"] ∧
    parseLatLon (some "43.32047104103794, 3.2202660369625726")
        = some ⟨(43.32047104103794 : ℚ), (3.2202660369625726 : ℚ)⟩ := by
  have h0 : toNumber "43.32047104103794" = some (43.32047104103794 : ℚ) := by
    rw [show (43.32047104103794 : ℚ) = Rat.ofScientific 4332047104103794 true 14 from rfl,
      Rat.ofScientific_def, if_pos rfl]
    decide
  have h1 : toNumber "3.2202660369625726" = some (3.2202660369625726 : ℚ) := by
    rw [show (3.2202660369625726 : ℚ) = Rat.ofScientific 32202660369625726 true 16 from rfl,
      Rat.ofScientific_def, if_pos rfl]
    decide
  exact ⟨by decide,
    C6_parse_first_two "43.32047104103794, 3.2202660369625726"
      "43.32047104103794" "3.2202660369625726" [] _ _ (by decide) h0 h1⟩

/-- C7: `parse` fails (returns the `null` ParseError outcome) exactly when
the input is absent or empty, fewer than two numeric matches are found, or
an extracted token fails to convert to a finite number; in particular it
fails on `""`, `null` and `"only one 48.85"` (and, being a total function
of the input, it never throws). -/
theorem C7_parse_failure_iff :
    (∀ inp : Option String, parseLatLon inp = none ↔
      (inp = none ∨ inp = some "" ∨ ∃ s, inp = some s ∧
        ((jsMatches s).length < 2 ∨ ∃ t ∈ (jsMatches s).take 2, toNumber t = none))) ∧
    parseLatLon none = none ∧ parseLatLon (some "") = none ∧
    parseLatLon (some "only one 48.85") = none := by
  refine ⟨?_, rfl, by decide, by decide⟩
  intro inp
  match inp with
  | none => simp [parseLatLon]
  | some s =>
    by_cases hs : s = ""
    · subst hs; simp [parseLatLon]
    · simp only [parseLatLon, if_neg hs, Option.some.injEq, reduceCtorEq, false_or,
        exists_and_left, exists_eq_left']
      rcases hm : jsMatches s with _ | ⟨m0, tl0⟩
      · simp [hm, hs]
      rcases tl0 with _ | ⟨m1, tl⟩
      · simp [hm, hs]
      rcases h0 : toNumber m0 with _ | q0
      · simp [hm, hs, h0]
      rcases h1 : toNumber m1 with _ | q1
      · simp [hm, hs, h0, h1]
      · simp [hm, hs, h0, h1]

/-- The invalid-coordinates snapshot a rejected submission leaves: every
per-source field empty, only the validation message set. -/
def invalidSnapshot {α : Type} : Snapshot α := ⟨none, none, none, none, none, invalidMsg⟩

/-- C8: on submission, each coordinate field is normalised (`,` → `.`)
before the finiteness check, and when either normalised value is
non-finite the run stops with the validation error — the snapshot carries
only the message and no source call is dispatched (the result does not
depend on the backends at all). -/
theorem C8_submit_validation {α : Type} (prev : Snapshot α) (latS lonS : String)
    (backends backends' : ℚ → ℚ → RunCalls α)
    (h : jsStringToNumber (jsReplaceComma latS) = none ∨
      jsStringToNumber (jsReplaceComma lonS) = none) :
    run prev latS lonS backends = invalidSnapshot ∧
    run prev latS lonS backends = run prev latS lonS backends' := by
  have hv : validateCoords latS lonS = none := by
    rcases h with h | h
    · unfold validateCoords
      rw [h]
      rcases jsStringToNumber (jsReplaceComma lonS) with _ | lo <;> rfl
    · unfold validateCoords
      rw [h]
  refine ⟨?_, ?_⟩
  · simp [run, hv]
    rfl
  · simp [run, hv]

/-- C8 (witness): a latitude field `"4,5,6"` — whose first comma is
normalised to a dot, leaving a string that is still not a finite number —
is rejected: the snapshot is the bare validation error whatever the
backends would have answered. -/
theorem C8_witness :
    run (emptySnapshot (α := String)) "4,5,6" "2.0"
        (fun _ _ => ⟨.ok "s", .ok "p", .ok "u", .ok "h", .ok "a"⟩) = invalidSnapshot ∧
    run (emptySnapshot (α := String)) "4,5,6" "2.0"
        (fun _ _ => ⟨.ok "s", .ok "p", .ok "u", .ok "h", .ok "a"⟩)
      = run emptySnapshot "4,5,6" "2.0"
        (fun _ _ => ⟨.error "x", .error "y", .error "z", .error "w", .error "v"⟩) :=
  C8_submit_validation emptySnapshot "4,5,6" "2.0" _ _ (Or.inl (by decide))

/-- C10: `run` clears every per-source field and the error string before
validating, so a run whose coordinate validation fails leaves the
previous snapshot discarded: every field empty and only the validation
error set, whatever was displayed before. -/
theorem C10_failed_validation_resets {α : Type} (prev : Snapshot α) (latS lonS : String)
    (backends : ℚ → ℚ → RunCalls α) (h : validateCoords latS lonS = none) :
    run prev latS lonS backends = invalidSnapshot := by
  simp [run, h]
  rfl

/-- C10 (witness): after a fully populated previous snapshot, a submission
with a non-numeric latitude leaves the bare validation-error snapshot —
nothing of the previous results survives. -/
theorem C10_witness :
    run (⟨some "sheet", some "plu", some "urb", some (.payload "her"), some "air", "old errors"⟩ :
        Snapshot String) "abc" "1"
        (fun _ _ => ⟨.ok "s", .ok "p", .ok "u", .ok "h", .ok "a"⟩) = invalidSnapshot :=
  C10_failed_validation_resets _ "abc" "1" _ (by decide)
